import Mathlib

/-!
Shallow embedding of `backend/danswer/server/query_and_chat/models.py`:
the request/response pydantic models of the query-and-chat surface, their
root validators, field defaults, and the `ChatMessageDetail.dict`
serialization override.

Pydantic conventions are embedded as follows: a model is a structure whose
fields keep the source's names and order; a field default (`= None`, `= 0`)
becomes a Lean structure-field default; a `root_validator` that either
raises `ValueError(msg)` or returns the values unchanged becomes a function
`Request → Except String Request`.
-/

/-- Naive Python `datetime.datetime` value (no timezone offset), as used by
the `time_sent` field. -/
structure DateTime where
  year : Nat
  month : Nat
  day : Nat
  hour : Nat
  minute : Nat
  second : Nat
  microsecond : Nat
deriving DecidableEq, Repr

/-- Left-pad the decimal representation of `n` with zeros to width `w`,
as Python does inside `datetime.isoformat`. -/
def zeroPad (w : Nat) (n : Nat) : String :=
  let s := Nat.repr n
  String.mk (List.replicate (w - s.length) '0') ++ s

/-- Python `datetime.isoformat()` on a naive datetime:
`YYYY-MM-DDTHH:MM:SS`, with `.ffffff` appended when microseconds are
nonzero. -/
def DateTime.isoformat (d : DateTime) : String :=
  zeroPad 4 d.year ++ "-" ++ zeroPad 2 d.month ++ "-" ++ zeroPad 2 d.day ++
    "T" ++ zeroPad 2 d.hour ++ ":" ++ zeroPad 2 d.minute ++ ":" ++
    zeroPad 2 d.second ++
    (if d.microsecond = 0 then "" else "." ++ zeroPad 6 d.microsecond)

/-- Modelled from the spec: message role enum (`danswer.configs.constants.
MessageType`, imported but not under the visible source); spec lists the
roles user/assistant/system. -/
inductive MessageType where
  | system
  | user
  | assistant
deriving DecidableEq, Repr

/-- Modelled from the spec: search-feedback category enum
(`danswer.configs.constants.SearchFeedbackType`, imported but not under the
visible source); only its presence/absence participates in any invariant. -/
inductive SearchFeedbackType where
  | endorse
  | reject
deriving DecidableEq, Repr

/-- Modelled from the spec: `danswer.chat.models.RetrievalDocs`, the set of
retrieval documents associated with a response; its internals do not
participate in any invariant here. -/
structure RetrievalDocs where
  top_documents : List String
deriving DecidableEq, Repr

/-- Modelled from the spec: `danswer.file_store.models.FileDescriptor`, an
attached file reference; its internals do not participate in any invariant
here. -/
structure FileDescriptor where
  id : String
deriving DecidableEq, Repr

/-- Modelled from the spec: `danswer.tools.models.ToolCallFinalResult`, a
tool-invocation result; its internals do not participate in any invariant
here. -/
structure ToolCallFinalResult where
  tool_name : String
deriving DecidableEq, Repr

/-- Modelled from the spec: `danswer.search.models.RetrievalDetails`, the
retrieval-options object; only its presence/absence participates in the
validated invariant. -/
structure RetrievalDetails
deriving DecidableEq, Repr

/-- Modelled from the spec: `danswer.llm.override_models.LLMOverride`, a
request-scoped LLM substitution; only its presence matters here. -/
structure LLMOverride
deriving DecidableEq, Repr

/-- Modelled from the spec: `danswer.llm.override_models.PromptOverride`, a
request-scoped prompt substitution; only its presence matters here. -/
structure PromptOverride
deriving DecidableEq, Repr

/-- Modelled from the spec: `danswer.search.models.ChunkContext`, the base
model `CreateChatMessageRequest` extends; its fields do not participate in
any validated invariant. -/
structure ChunkContext
deriving DecidableEq, Repr

/-- Modelled from the spec: `danswer.db.models.StarterMessage`; internals
do not participate in any invariant here. -/
structure StarterMessage where
  message : String
deriving DecidableEq, Repr

/-- Modelled from the spec: search mode enum (`danswer.search.enums.
SearchType`); spec notes the default search mode is hybrid. -/
inductive SearchType where
  | keyword
  | semantic
  | hybrid
deriving DecidableEq, Repr

/-- Modelled from the spec: recency-bias enum (`danswer.search.enums.
RecencyBiasSetting`); only its default participates here. -/
inductive RecencyBiasSetting where
  | auto
  | favor_recent
  | no_decay
deriving DecidableEq, Repr

/-- A serialized Python value as produced by pydantic `.dict()`: each
constructor records which Python value sits under a dict key. -/
inductive Val where
  | vint : Int → Val
  | vstr : String → Val
  | vnone : Val
  | vdt : DateTime → Val
  | vmsgType : MessageType → Val
  | vdocs : RetrievalDocs → Val
  | vcitations : List (Int × Int) → Val
  | vfiles : List FileDescriptor → Val
  | vtools : List ToolCallFinalResult → Val
deriving DecidableEq, Repr

/-- Serialize an optional value: Python `None` becomes `Val.vnone`. -/
def optVal {α : Type} (f : α → Val) : Option α → Val
  | none => Val.vnone
  | some a => f a

/-- Python dict read: first (and only) binding of key `k`. -/
def dictLookup (k : String) : List (String × Val) → Option Val
  | [] => none
  | p :: rest => if p.1 = k then some p.2 else dictLookup k rest

/-- Python dict assignment `d[k] = v`: replace the binding in place when the
key exists, else append a new binding at the end. -/
def dictSet (k : String) (v : Val) (d : List (String × Val)) : List (String × Val) :=
  if (dictLookup k d).isSome then
    d.map (fun p => if p.1 = k then (k, v) else p)
  else
    d ++ [(k, v)]

/-- `ChatSessionCreationRequest` (models.py lines 44-47): `persona_id`
defaults to 0 (the Danswer default persona), `description` to null. -/
structure ChatSessionCreationRequest where
  persona_id : Int := 0
  description : Option String := none
deriving DecidableEq, Repr

/-- `ChatFeedbackRequest` (models.py lines 59-63). -/
structure ChatFeedbackRequest where
  chat_message_id : Int
  is_positive : Option Bool := none
  feedback_text : Option String := none
  predefined_feedback : Option String := none
deriving DecidableEq, Repr

/-- Root validator `check_is_positive_or_feedback_text` (models.py lines
65-74): raises `ValueError("Empty feedback received.")` when both
`is_positive` and `feedback_text` are null, else returns the values
unchanged. -/
def ChatFeedbackRequest.check_is_positive_or_feedback_text
    (r : ChatFeedbackRequest) : Except String ChatFeedbackRequest :=
  if r.is_positive = none ∧ r.feedback_text = none then
    Except.error "Empty feedback received."
  else
    Except.ok r

/-- `PromptCreate` (models.py lines 88-94). -/
structure PromptCreate where
  name : String
  description : String := ""
  system_prompt : String
  task_prompt : String := ""
  include_citations : Bool := true
  datetime_aware : Bool := true
deriving DecidableEq, Repr

/-- `DocumentSetConfig` (models.py lines 97-98). -/
structure DocumentSetConfig where
  id : Int
deriving DecidableEq, Repr

/-- `ToolConfig` (models.py lines 101-106): `in_code_tool_id`,
`display_name` and `openapi_schema` all default to null. -/
structure ToolConfig where
  name : String
  description : String
  in_code_tool_id : Option Int := none
  display_name : Option String := none
  openapi_schema : Option (List (String × Val)) := none
deriving DecidableEq, Repr

/-- `PersonaConfig` (models.py lines 109-127). -/
structure PersonaConfig where
  name : String
  description : String
  search_type : SearchType := SearchType.hybrid
  num_chunks : Option Int := none
  llm_relevance_filter : Bool := false
  llm_filter_extraction : Bool := false
  recency_bias : RecencyBiasSetting := RecencyBiasSetting.auto
  llm_model_provider_override : Option String := none
  llm_model_version_override : Option String := none
  starter_messages : Option (List StarterMessage) := none
  default_persona : Bool := false
  is_visible : Bool := true
  display_priority : Option Int := none
  deleted : Bool := false
  is_public : Bool := true
  prompts : List PromptCreate := []
  document_sets : List DocumentSetConfig := []
  tools : List ToolConfig := []
deriving DecidableEq, Repr

/-- `CreateChatMessageRequest` (models.py lines 130-160), extending
`ChunkContext`. -/
structure CreateChatMessageRequest extends ChunkContext where
  persona_config : Option PersonaConfig := none
  chat_session_id : Int
  parent_message_id : Option Int
  message : String
  file_descriptors : List FileDescriptor
  prompt_id : Option Int
  search_doc_ids : Option (List Int)
  retrieval_options : Option RetrievalDetails
  query_override : Option String := none
  llm_override : Option LLMOverride := none
  prompt_override : Option PromptOverride := none
  alternate_assistant_id : Option Int := none
  use_existing_user_message : Bool := false
deriving DecidableEq, Repr

/-- Root validator `check_search_doc_ids_or_retrieval_options` (models.py
lines 162-173): raises a `ValueError` when both `search_doc_ids` and
`retrieval_options` are null, else returns the values unchanged. -/
def CreateChatMessageRequest.check_search_doc_ids_or_retrieval_options
    (r : CreateChatMessageRequest) : Except String CreateChatMessageRequest :=
  if r.search_doc_ids = none ∧ r.retrieval_options = none then
    Except.error
      "Either search_doc_ids or retrieval_options must be provided, but not both or neither."
  else
    Except.ok r

/-- `SearchFeedbackRequest` (models.py lines 207-212). -/
structure SearchFeedbackRequest where
  message_id : Int
  document_id : String
  document_rank : Int
  click : Bool
  search_feedback : Option SearchFeedbackType
deriving DecidableEq, Repr

/-- Root validator `check_click_or_search_feedback` (models.py lines
214-221): raises `ValueError("Empty feedback received.")` when `click` is
false and `search_feedback` is null, else returns the values unchanged. -/
def SearchFeedbackRequest.check_click_or_search_feedback
    (r : SearchFeedbackRequest) : Except String SearchFeedbackRequest :=
  if r.click = false ∧ r.search_feedback = none then
    Except.error "Empty feedback received."
  else
    Except.ok r

/-- `ChatMessageDetail` (models.py lines 224-237). -/
structure ChatMessageDetail where
  message_id : Int
  parent_message : Option Int
  latest_child_message : Option Int
  message : String
  rephrased_query : Option String
  context_docs : Option RetrievalDocs
  message_type : MessageType
  time_sent : DateTime
  alternate_assistant_id : Option String
  citations : Option (List (Int × Int))
  files : List FileDescriptor
  tool_calls : List ToolCallFinalResult
deriving DecidableEq, Repr

/-- The base pydantic `BaseModel.dict()` serialization of a
`ChatMessageDetail`: one binding per field, in field-declaration order;
`time_sent` is still a datetime value here. -/
def ChatMessageDetail.baseDict (m : ChatMessageDetail) : List (String × Val) :=
  [("message_id", Val.vint m.message_id),
   ("parent_message", optVal Val.vint m.parent_message),
   ("latest_child_message", optVal Val.vint m.latest_child_message),
   ("message", Val.vstr m.message),
   ("rephrased_query", optVal Val.vstr m.rephrased_query),
   ("context_docs", optVal Val.vdocs m.context_docs),
   ("message_type", Val.vmsgType m.message_type),
   ("time_sent", Val.vdt m.time_sent),
   ("alternate_assistant_id", optVal Val.vstr m.alternate_assistant_id),
   ("citations", optVal Val.vcitations m.citations),
   ("files", Val.vfiles m.files),
   ("tool_calls", Val.vtools m.tool_calls)]

/-- Overridden `ChatMessageDetail.dict` (models.py lines 239-242): take the
base serialization and assign `initial_dict["time_sent"] =
self.time_sent.isoformat()`. -/
def ChatMessageDetail.dict (m : ChatMessageDetail) : List (String × Val) :=
  dictSet "time_sent" (Val.vstr m.time_sent.isoformat) m.baseDict

/-! Concrete sample values used by counterexamples and witnesses. -/

/-- A message-creation request with BOTH `search_doc_ids` and
`retrieval_options` non-null. -/
def reqBoth : CreateChatMessageRequest :=
  { chat_session_id := 1
    parent_message_id := none
    message := "hello"
    file_descriptors := []
    prompt_id := none
    search_doc_ids := some [7]
    retrieval_options := some {} }

/-- A message-creation request with both `search_doc_ids` and
`retrieval_options` null. -/
def reqNeither : CreateChatMessageRequest :=
  { chat_session_id := 2
    parent_message_id := none
    message := "hi"
    file_descriptors := []
    prompt_id := none
    search_doc_ids := none
    retrieval_options := none }

/-- A chat-feedback request with a positive signal and no free text. -/
def cfr0 : ChatFeedbackRequest :=
  { chat_message_id := 5, is_positive := some true }

/-- A chat-feedback request with `is_positive = false` (falsy but non-null)
and null `feedback_text`. -/
def cfrFalse : ChatFeedbackRequest :=
  { chat_message_id := 6, is_positive := some false }

/-- A message-creation request with `search_doc_ids = []` (empty list,
falsy but non-null) and null `retrieval_options`. -/
def cmrEmptyIds : CreateChatMessageRequest :=
  { chat_session_id := 3
    parent_message_id := none
    message := "m"
    file_descriptors := []
    prompt_id := none
    search_doc_ids := some []
    retrieval_options := none }

/-- A search-feedback request with `click = false` and a non-null feedback
category. -/
def sfrClickFalse : SearchFeedbackRequest :=
  { message_id := 9
    document_id := "doc-1"
    document_rank := 0
    click := false
    search_feedback := some SearchFeedbackType.endorse }

/-- A tool config constructed without a `display_name`. -/
def tc0 : ToolConfig :=
  { name := "search", description := "runs a search" }

/-- A concrete chat-message detail. -/
def md0 : ChatMessageDetail :=
  { message_id := 1
    parent_message := none
    latest_child_message := none
    message := "hello"
    rephrased_query := none
    context_docs := none
    message_type := MessageType.user
    time_sent := ⟨2024, 1, 2, 3, 4, 5, 0⟩
    alternate_assistant_id := none
    citations := none
    files := []
    tool_calls := [] }

/-! Helper lemmas about the Python-dict operations. -/

/-- Replacing the binding of key `k` in place leaves lookups of every other
key unchanged. -/
lemma lookup_mapSet_ne (d : List (String × Val)) (k k' : String) (v : Val)
    (h : k' ≠ k) :
    dictLookup k' (d.map (fun p => if p.1 = k then (k, v) else p)) =
      dictLookup k' d := by
  induction d with
  | nil => rfl
  | cons p rest ih =>
    by_cases hp : p.1 = k
    · simp [dictLookup, hp, Ne.symm h, ih]
    · simp [dictLookup, hp, ih]

/-- Replacing the binding of a present key `k` in place makes lookup of `k`
return the new value. -/
lemma lookup_mapSet_self (d : List (String × Val)) (k : String) (v : Val)
    (h : (dictLookup k d).isSome) :
    dictLookup k (d.map (fun p => if p.1 = k then (k, v) else p)) = some v := by
  induction d with
  | nil => simp [dictLookup] at h
  | cons p rest ih =>
    by_cases hp : p.1 = k
    · simp [dictLookup, hp]
    · have h' : (dictLookup k rest).isSome := by
        simpa [dictLookup, hp] using h
      simp [dictLookup, hp, ih h']

/-- Replacing a binding in place preserves the key sequence. -/
lemma mapSet_fst (d : List (String × Val)) (k : String) (v : Val) :
    (d.map (fun p => if p.1 = k then (k, v) else p)).map Prod.fst =
      d.map Prod.fst := by
  induction d with
  | nil => rfl
  | cons p rest ih =>
    by_cases hp : p.1 = k
    · simp [hp, ih]
    · simp [hp, ih]

/-- Appending a fresh binding at the end leaves lookups of every other key
unchanged. -/
lemma lookup_append_single (d : List (String × Val)) (k k' : String) (v : Val)
    (h : k' ≠ k) :
    dictLookup k' (d ++ [(k, v)]) = dictLookup k' d := by
  induction d with
  | nil => simp [dictLookup, Ne.symm h]
  | cons p rest ih =>
    by_cases hp : p.1 = k'
    · simp [dictLookup, hp]
    · simp [dictLookup, hp, ih]

/-- `d[k] = v` followed by reading `k` yields `v`, when `k` was present. -/
lemma dictSet_lookup_self (d : List (String × Val)) (k : String) (v : Val)
    (h : (dictLookup k d).isSome) :
    dictLookup k (dictSet k v d) = some v := by
  unfold dictSet
  rw [if_pos h]
  exact lookup_mapSet_self d k v h

/-- `d[k] = v` leaves every other key's lookup unchanged. -/
lemma dictSet_lookup_ne (d : List (String × Val)) (k k' : String) (v : Val)
    (h : k' ≠ k) :
    dictLookup k' (dictSet k v d) = dictLookup k' d := by
  unfold dictSet
  by_cases hs : (dictLookup k d).isSome
  · rw [if_pos hs]
    exact lookup_mapSet_ne d k k' v h
  · rw [if_neg hs]
    exact lookup_append_single d k k' v h

/-- `d[k] = v` preserves the key sequence when `k` was present. -/
lemma dictSet_map_fst (d : List (String × Val)) (k : String) (v : Val)
    (h : (dictLookup k d).isSome) :
    (dictSet k v d).map Prod.fst = d.map Prod.fst := by
  unfold dictSet
  rw [if_pos h]
  exact mapSet_fst d k v

/-- Every `ChatMessageDetail` base serialization carries a `time_sent`
binding. -/
lemma time_sent_present (m : ChatMessageDetail) :
    (dictLookup "time_sent" m.baseDict).isSome := rfl

/-! Claim theorems. -/

/-- C1 counterexample: a `CreateChatMessageRequest` with both
`search_doc_ids` and `retrieval_options` non-null passes validation, so the
claim that a both-set request is rejected is false on the code. -/
theorem createChatMessage_both_set_accepted_counterexample :
    reqBoth.search_doc_ids ≠ none ∧ reqBoth.retrieval_options ≠ none ∧
    CreateChatMessageRequest.check_search_doc_ids_or_retrieval_options reqBoth =
      Except.ok reqBoth :=
  ⟨by decide, by decide, rfl⟩

/-- C1 (amended): validation of a `CreateChatMessageRequest` accepts the
request if and only if at least one of `search_doc_ids` and
`retrieval_options` is non-null; only the both-null case is rejected with a
`ValidationError`, and a both-set request is accepted. -/
theorem createChatMessage_validator_accepts_iff_some_present
    (r : CreateChatMessageRequest) :
    (CreateChatMessageRequest.check_search_doc_ids_or_retrieval_options r =
        Except.ok r ↔
      (r.search_doc_ids ≠ none ∨ r.retrieval_options ≠ none)) ∧
    (CreateChatMessageRequest.check_search_doc_ids_or_retrieval_options r =
        Except.error
          "Either search_doc_ids or retrieval_options must be provided, but not both or neither." ↔
      (r.search_doc_ids = none ∧ r.retrieval_options = none)) := by
  unfold CreateChatMessageRequest.check_search_doc_ids_or_retrieval_options
  by_cases h : r.search_doc_ids = none ∧ r.retrieval_options = none
  · rw [if_pos h]
    simp [h.1, h.2]
  · rw [if_neg h]
    rw [not_and_or] at h
    constructor
    · simpa using h
    · constructor
      · intro hc
        exact Except.noConfusion hc
      · intro hc
        rcases h with h | h
        · exact absurd hc.1 h
        · exact absurd hc.2 h

/-- C2: the mutual-exclusion rule is enforced only in the absence
direction: a request with both `search_doc_ids` and `retrieval_options`
non-null passes validation unchanged, while a request with both null is
rejected with a `ValidationError`. -/
theorem createChatMessage_validator_absence_direction_only
    (r : CreateChatMessageRequest) :
    (r.search_doc_ids ≠ none → r.retrieval_options ≠ none →
      CreateChatMessageRequest.check_search_doc_ids_or_retrieval_options r =
        Except.ok r) ∧
    (r.search_doc_ids = none → r.retrieval_options = none →
      ∃ msg, CreateChatMessageRequest.check_search_doc_ids_or_retrieval_options r =
        Except.error msg) := by
  constructor
  · intro h1 h2
    unfold CreateChatMessageRequest.check_search_doc_ids_or_retrieval_options
    rw [if_neg (fun hc => h1 hc.1)]
  · intro h1 h2
    refine ⟨"Either search_doc_ids or retrieval_options must be provided, but not both or neither.", ?_⟩
    unfold CreateChatMessageRequest.check_search_doc_ids_or_retrieval_options
    rw [if_pos ⟨h1, h2⟩]

/-- C2 witness: the theorem applied to the concrete both-set request and the
concrete both-null request. -/
theorem createChatMessage_validator_absence_direction_only_witness :
    (reqBoth.search_doc_ids ≠ none ∧ reqBoth.retrieval_options ≠ none ∧
      CreateChatMessageRequest.check_search_doc_ids_or_retrieval_options reqBoth =
        Except.ok reqBoth) ∧
    (reqNeither.search_doc_ids = none ∧ reqNeither.retrieval_options = none ∧
      ∃ msg,
        CreateChatMessageRequest.check_search_doc_ids_or_retrieval_options reqNeither =
          Except.error msg) :=
  ⟨⟨by decide, by decide,
    (createChatMessage_validator_absence_direction_only reqBoth).1
      (by decide) (by decide)⟩,
   ⟨rfl, rfl,
    (createChatMessage_validator_absence_direction_only reqNeither).2 rfl rfl⟩⟩

/-- C3: a `ChatFeedbackRequest` is rejected with
`ValidationError("Empty feedback received.")` if and only if both
`is_positive` and `feedback_text` are null; otherwise it is accepted
unchanged. -/
theorem chatFeedback_validator_rejects_iff_both_null (r : ChatFeedbackRequest) :
    (ChatFeedbackRequest.check_is_positive_or_feedback_text r =
        Except.error "Empty feedback received." ↔
      (r.is_positive = none ∧ r.feedback_text = none)) ∧
    (ChatFeedbackRequest.check_is_positive_or_feedback_text r = Except.ok r ↔
      (r.is_positive ≠ none ∨ r.feedback_text ≠ none)) := by
  unfold ChatFeedbackRequest.check_is_positive_or_feedback_text
  by_cases h : r.is_positive = none ∧ r.feedback_text = none
  · rw [if_pos h]
    simp [h.1, h.2]
  · rw [if_neg h]
    rw [not_and_or] at h
    constructor
    · constructor
      · intro hc
        exact Except.noConfusion hc
      · intro hc
        rcases h with h | h
        · exact absurd hc.1 h
        · exact absurd hc.2 h
    · simpa using h

/-- C4: a `SearchFeedbackRequest` is accepted if and only if `click` is true
or `search_feedback` is non-null; when `click` is false and
`search_feedback` is null it is rejected with
`ValidationError("Empty feedback received.")`. -/
theorem searchFeedback_validator_accepts_iff_click_or_feedback
    (r : SearchFeedbackRequest) :
    (SearchFeedbackRequest.check_click_or_search_feedback r = Except.ok r ↔
      (r.click = true ∨ r.search_feedback ≠ none)) ∧
    (SearchFeedbackRequest.check_click_or_search_feedback r =
        Except.error "Empty feedback received." ↔
      (r.click = false ∧ r.search_feedback = none)) := by
  unfold SearchFeedbackRequest.check_click_or_search_feedback
  by_cases h1 : r.click = false <;> by_cases h2 : r.search_feedback = none <;>
    simp [h1, h2]

/-- C5: each of the three root validators, when it accepts a request,
returns exactly the request it was given — no field is altered and, the
embedding being a pure function, there is no other effect. -/
theorem validators_return_request_unchanged :
    (∀ (r s : ChatFeedbackRequest),
        ChatFeedbackRequest.check_is_positive_or_feedback_text r =
          Except.ok s → s = r) ∧
    (∀ (r s : CreateChatMessageRequest),
        CreateChatMessageRequest.check_search_doc_ids_or_retrieval_options r =
          Except.ok s → s = r) ∧
    (∀ (r s : SearchFeedbackRequest),
        SearchFeedbackRequest.check_click_or_search_feedback r =
          Except.ok s → s = r) := by
  refine ⟨?_, ?_, ?_⟩
  · intro r s h
    unfold ChatFeedbackRequest.check_is_positive_or_feedback_text at h
    split at h
    · exact Except.noConfusion h
    · exact (Except.ok.inj h).symm
  · intro r s h
    unfold CreateChatMessageRequest.check_search_doc_ids_or_retrieval_options at h
    split at h
    · exact Except.noConfusion h
    · exact (Except.ok.inj h).symm
  · intro r s h
    unfold SearchFeedbackRequest.check_click_or_search_feedback at h
    split at h
    · exact Except.noConfusion h
    · exact (Except.ok.inj h).symm

/-- C5 witness: the theorem applied to a concrete accepted feedback
request. -/
theorem validators_return_request_unchanged_witness :
    ChatFeedbackRequest.check_is_positive_or_feedback_text cfr0 =
      Except.ok cfr0 ∧ cfr0 = cfr0 :=
  ⟨rfl, validators_return_request_unchanged.1 cfr0 cfr0 rfl⟩

/-- C6: the wire serialization produced by `ChatMessageDetail.dict` carries
`time_sent` as the ISO-8601 `isoformat` string of the datetime value, not
as a datetime. -/
theorem chatMessageDetail_dict_time_sent_isoformat (m : ChatMessageDetail) :
    dictLookup "time_sent" m.dict =
      some (Val.vstr m.time_sent.isoformat) :=
  dictSet_lookup_self m.baseDict "time_sent"
    (Val.vstr m.time_sent.isoformat) (time_sent_present m)

/-- C7 counterexample: a `ToolConfig` constructed without a `display_name`
has `display_name = none`, not the tool's name, so the claim is false on
the code. -/
theorem toolConfig_display_name_not_defaulted_counterexample :
    tc0.name = "search" ∧ tc0.display_name = none ∧
    tc0.display_name ≠ some tc0.name :=
  ⟨rfl, rfl, by decide⟩

/-- C7 (amended): for every `ToolConfig` constructed without a
`display_name`, the resulting `display_name` is null; the model itself
performs no defaulting to the tool's name (any such defaulting happens
outside this model). -/
theorem toolConfig_display_name_defaults_to_none (n d : String) :
    ({ name := n, description := d } : ToolConfig).display_name = none :=
  rfl

/-- C8: a `ChatSessionCreationRequest` constructed without a `persona_id`
defaults it to 0, the process-wide default persona id. -/
theorem chatSessionCreation_persona_id_defaults_zero (d : Option String) :
    ({ description := d } : ChatSessionCreationRequest).persona_id = 0 :=
  rfl

/-- C9: all three validators test presence as is-not-null, never
truthiness: `is_positive = false` with null `feedback_text` is accepted,
`search_doc_ids = []` with null `retrieval_options` is accepted, and
`click = false` with any non-null `search_feedback` is accepted. -/
theorem validators_check_null_not_truthiness :
    (∀ (r : ChatFeedbackRequest),
        r.is_positive = some false → r.feedback_text = none →
        ChatFeedbackRequest.check_is_positive_or_feedback_text r =
          Except.ok r) ∧
    (∀ (r : CreateChatMessageRequest),
        r.search_doc_ids = some [] → r.retrieval_options = none →
        CreateChatMessageRequest.check_search_doc_ids_or_retrieval_options r =
          Except.ok r) ∧
    (∀ (r : SearchFeedbackRequest),
        r.click = false → r.search_feedback ≠ none →
        SearchFeedbackRequest.check_click_or_search_feedback r =
          Except.ok r) := by
  refine ⟨?_, ?_, ?_⟩
  · intro r h1 h2
    unfold ChatFeedbackRequest.check_is_positive_or_feedback_text
    rw [if_neg (by simp [h1])]
  · intro r h1 h2
    unfold CreateChatMessageRequest.check_search_doc_ids_or_retrieval_options
    rw [if_neg (by simp [h1])]
  · intro r h1 h2
    unfold SearchFeedbackRequest.check_click_or_search_feedback
    rw [if_neg (by simp [h2])]

/-- C9 witness: the theorem applied to the three concrete falsy-but-non-null
requests. -/
theorem validators_check_null_not_truthiness_witness :
    (cfrFalse.is_positive = some false ∧ cfrFalse.feedback_text = none ∧
      ChatFeedbackRequest.check_is_positive_or_feedback_text cfrFalse =
        Except.ok cfrFalse) ∧
    (cmrEmptyIds.search_doc_ids = some [] ∧
      cmrEmptyIds.retrieval_options = none ∧
      CreateChatMessageRequest.check_search_doc_ids_or_retrieval_options
        cmrEmptyIds = Except.ok cmrEmptyIds) ∧
    (sfrClickFalse.click = false ∧ sfrClickFalse.search_feedback ≠ none ∧
      SearchFeedbackRequest.check_click_or_search_feedback sfrClickFalse =
        Except.ok sfrClickFalse) :=
  ⟨⟨rfl, rfl, validators_check_null_not_truthiness.1 cfrFalse rfl rfl⟩,
   ⟨rfl, rfl, validators_check_null_not_truthiness.2.1 cmrEmptyIds rfl rfl⟩,
   ⟨rfl, by decide,
    validators_check_null_not_truthiness.2.2 sfrClickFalse rfl (by decide)⟩⟩

/-- C10: the overridden `ChatMessageDetail.dict` changes only the
`time_sent` entry of the base serialization: the key sequence is unchanged
(no key added or removed) and every key other than `time_sent` looks up to
exactly its base-serialization value. -/
theorem chatMessageDetail_dict_frame_only_time_sent (m : ChatMessageDetail) :
    (m.dict.map Prod.fst = m.baseDict.map Prod.fst) ∧
    ∀ k : String, k ≠ "time_sent" →
      dictLookup k m.dict = dictLookup k m.baseDict :=
  ⟨dictSet_map_fst m.baseDict "time_sent"
      (Val.vstr m.time_sent.isoformat) (time_sent_present m),
   fun k hk =>
    dictSet_lookup_ne m.baseDict "time_sent" k
      (Val.vstr m.time_sent.isoformat) hk⟩

/-- C10 witness: the theorem applied to a concrete message detail at the
concrete key `"message"`. -/
theorem chatMessageDetail_dict_frame_only_time_sent_witness :
    ("message" ≠ "time_sent") ∧
    dictLookup "message" md0.dict = dictLookup "message" md0.baseDict :=
  ⟨by decide,
   (chatMessageDetail_dict_frame_only_time_sent md0).2 "message" (by decide)⟩
